import Mathlib

/-!
Shallow embedding of the crc-extension lifecycle code (src/crc-start.ts and
src/extension.ts) and proofs of the specification claims about it.

External collaborators (the daemon commander, the host window API, loggers,
telemetry, the status tracker) are modelled as environment inputs describing
the outcome of each external call, and as entries of an event trace recording
every observable call the code makes, in program order.  Fallible JavaScript
code is modelled with explicit return values: a `JsRet` distinguishes
`return true`, `return false`, a bare `return` (undefined) and a thrown error.
-/

namespace Crc

/-- Model of a JavaScript value produced by JSON.parse. -/
inductive Json where
  | jnull
  | jbool (b : Bool)
  | jnum (n : Int)
  | jstr (s : String)
  | jarr (xs : List Json)
  | jobj (fields : List (String × Json))

/-- Property access `v[k]` on a parsed JSON value: only objects have named
own properties; a missing property is `undefined`, modelled as `none`.
(JSON.parse never produces duplicate keys: it keeps the last one; we read
the first binding, which is the only one for such objects.) -/
def Json.getField : Json → String → Option Json
  | .jobj fields, k => (fields.find? (fun p => p.1 == k)).map (fun p => p.2)
  | _, _ => none

/-- JavaScript truthiness of a possibly-undefined value (`undefined`, `null`,
`false`, `0` and the empty string are falsy; objects and arrays are truthy). -/
def jsTruthy : Option Json → Bool
  | none => false
  | some .jnull => false
  | some (.jbool b) => b
  | some (.jnum n) => n != 0
  | some (.jstr s) => s != ""
  | some (.jarr _) => true
  | some (.jobj _) => true

/-- The values enumerated by `for (const a in v)` / `Object.keys(v)`, in
order: an object yields its property values, an array its elements, a string
its one-character substrings; other primitives have no enumerable keys. -/
def jsValues : Json → List Json
  | .jobj fields => fields.map (fun p => p.2)
  | .jarr xs => xs
  | .jstr s => s.data.map (fun c => Json.jstr (String.mk [c]))
  | _ => []

/-- Enumerated values of a possibly-undefined value. -/
def jsValuesOpt : Option Json → List Json
  | none => []
  | some j => jsValues j

mutual
/-- Serialization of a parsed JSON value following JSON.stringify.
String escaping is omitted: the
inputs relevant to the claims contain no characters that JSON.stringify
escapes. -/
def jsonStringify : Json → String
  | .jnull => "null"
  | .jbool b => cond b "true" "false"
  | .jnum n => toString n
  | .jstr s => "\"" ++ s ++ "\""
  | .jarr xs => "[" ++ jsonStringifyList xs ++ "]"
  | .jobj fs => "\x7b" ++ jsonStringifyFields fs ++ "\x7d"

/-- Comma-separated serialization of array elements. -/
def jsonStringifyList : List Json → String
  | [] => ""
  | [x] => jsonStringify x
  | x :: y :: xs => jsonStringify x ++ "," ++ jsonStringifyList (y :: xs)

/-- Comma-separated serialization of object fields. -/
def jsonStringifyFields : List (String × Json) → String
  | [] => ""
  | [(k, v)] => "\"" ++ k ++ "\":" ++ jsonStringify v
  | (k, v) :: f :: fs => "\"" ++ k ++ "\":" ++ jsonStringify v ++ "," ++ jsonStringifyFields (f :: fs)
end

/-- Observable calls the code under study makes, in program order. -/
inductive Ev where
  | telemetry (s : String)
  | setSetupRunning (b : Bool)
  | setupRun (interactive : Bool)
  | needSetupCall
  | logErrorCall
  | updateStatus (s : String)
  | startLogs
  | daemonStart
  | showError (msg : String)
  | showErrorObj
  | consoleErrorCall
  | consoleLogCall
  | promptPullSecret
  | pullSecretStoreCall
  | showInfo (msg : String)
  | updateVersion (s : String)
  | disposeConnection
  | registerContainerConn (socketPath : String)
  | registerKubeConn (connName : String)
  | configGetCall
  | connectToCrcCall
  | addCommandsCall
  | syncPreferencesCall
  | daemonStop
deriving Repr, DecidableEq

/-- Result of an async JavaScript function call. -/
inductive JsRet where
  | retTrue
  | retFalse
  | retUndef
  | thrown (msg : String)
deriving Repr, DecidableEq

/-- A start result counts as success exactly when it is `true`. -/
def JsRet.isSuccess : JsRet → Bool
  | .retTrue => true
  | _ => false

/-- Outcome of one `commander.start()` call: a resolved `{Status}` object, a
rejection with an error whose `message` is a string (with its `name` and
`code` fields), or a rejection whose `message` is not a string. -/
inductive StartOutcome where
  | ok (status : String)
  | errStr (message : String) (errName : String) (code : String)
  | errNonStr
deriving Repr, DecidableEq

/-- Outcome of one pull-secret prompt: the user cancelled (or entered an
empty string), entered text that JSON.parse rejects (with the text of the
parse error), or entered text parsing to `j`; `storeOk` tells whether the
daemon `pullSecretStore` call would succeed. -/
inductive PromptOutcome where
  | cancel
  | invalidJson (errText : String)
  | parsed (j : Json) (storeOk : Bool)

/-- Marker prefix of the daemon error raised when the pull secret is missing
( `const missingPullSecret` in crc-start.ts). -/
def missingPullSecret : String := "Failed to ask for pull secret"

/-- Modelled from the spec: the product display name lives in util.ts, which
is not under src/; its exact value affects only message text, not any claim. -/
def productName : String := "OpenShift Local"

/-- Structural prefix test on the underlying character lists; used to model
`String.prototype.startsWith`. -/
def charsPrefix : List Char → List Char → Bool
  | [], _ => true
  | _ :: _, [] => false
  | a :: as, b :: bs => a == b && charsPrefix as bs

/-- Model of `msg.startsWith(pre)`. -/
def strStartsWith (msg pre : String) : Bool :=
  charsPrefix pre.data msg.data

/-- The validation message of askAndStorePullSecret, built around the thrown
reason (`Start failed, pull secret is not valid. ...`). -/
def pullSecretInvalidMsg (err : String) : String :=
  "Start failed, pull secret is not valid. Please start again:\n \x27" ++ err ++ "\x27"

/-- The shape validation inside askAndStorePullSecret: requires a truthy
`auths` property with at least one enumerable key, and every enumerated entry
to have a truthy `auth` or `credsStore`; otherwise produces the string the
code throws (caught locally and shown to the user). -/
def validatePullSecret (s : Json) : Except String Unit :=
  if jsTruthy (s.getField "auths") && decide (0 < (jsValuesOpt (s.getField "auths")).length) then
    match (jsValuesOpt (s.getField "auths")).find?
        (fun aut => !(jsTruthy (aut.getField "auth")) && !(jsTruthy (aut.getField "credsStore"))) with
    | some _ => .error (jsonStringify s ++ " JSON-object requires either \x27auth\x27 or \x27credsStore\x27 field")
    | none => .ok ()
  else
    .error "missing \"auths\" JSON-object field"

/-- Model of `askAndStorePullSecret` (crc-start.ts lines 91-127): prompt the
user, parse and validate the input, and on valid input forward it to the
daemon pull-secret store; returns the event trace and the boolean result. -/
def askAndStorePullSecret (p : PromptOutcome) : List Ev × Bool :=
  match p with
  | .cancel => ([Ev.promptPullSecret], false)
  | .invalidJson errText =>
      ([Ev.promptPullSecret, Ev.showError (pullSecretInvalidMsg errText)], false)
  | .parsed j storeOk =>
      match validatePullSecret j with
      | .error e => ([Ev.promptPullSecret, Ev.showError (pullSecretInvalidMsg e)], false)
      | .ok _ =>
          if storeOk then
            ([Ev.promptPullSecret, Ev.pullSecretStoreCall], true)
          else
            ([Ev.promptPullSecret, Ev.pullSecretStoreCall, Ev.consoleErrorCall, Ev.logErrorCall], false)

/-- The module-level setup state read by startCrc: the `isNeedSetup` flag,
whether the setup block (`setUpCrc` / `needSetup`) would throw, and the value
the flag takes after a successful `needSetup()` re-evaluation. -/
structure SetupSt where
  isNeedSetup : Bool
  setupThrows : Bool
  needSetupAfter : Bool
deriving Repr, DecidableEq

/-- The setup state as seen by a recursive retry of startCrc: a successful
setup block has re-evaluated the flag. -/
def SetupSt.afterAttempt (st : SetupSt) : SetupSt :=
  if st.isNeedSetup then { st with isNeedSetup := st.needSetupAfter } else st

/-- Model of `startCrc` (crc-start.ts lines 37-89).  `daemon` lists the
outcomes of the successive `commander.start()` calls (one per attempt,
the recursion consumes them in order) and `prompts` the outcomes of the
successive pull-secret prompts.  The lists are always long enough for the
attempts actually made in the theorems; the empty-list fallbacks below are
conventions for unreachable cases. -/
def startCrc (st : SetupSt) (daemon : List StartOutcome) (prompts : List PromptOutcome) :
    List Ev × JsRet :=
  let pre : List Ev := [Ev.telemetry "crc.start"]
  if st.isNeedSetup && st.setupThrows then
    -- setup block throws: catch logs, sets status stopped, bare return;
    -- the finally clause clears the setup-running flag before returning
    (pre ++ [Ev.setSetupRunning true, Ev.setupRun true, Ev.logErrorCall,
             Ev.updateStatus "stopped", Ev.setSetupRunning false], JsRet.retUndef)
  else
    let setupEvs : List Ev :=
      if st.isNeedSetup then
        [Ev.setSetupRunning true, Ev.setupRun true, Ev.needSetupCall, Ev.setSetupRunning false]
      else []
    let st1 := st.afterAttempt
    match daemon with
    | [] => (pre ++ setupEvs ++ [Ev.startLogs, Ev.daemonStart], JsRet.retFalse)
    | d :: rest =>
      let base := pre ++ setupEvs ++ [Ev.startLogs, Ev.daemonStart]
      match d with
      | .ok status =>
          if status == "Running" then
            (base ++ [Ev.updateStatus "started"], JsRet.retTrue)
          else
            (base ++ [Ev.updateStatus "error",
                      Ev.showError ("Error during starting " ++ productName ++ ": " ++ status)],
             JsRet.retFalse)
      | .errStr msg nm code =>
          if strStartsWith msg missingPullSecret then
            match prompts with
            | [] => (base ++ (askAndStorePullSecret .cancel).1,
                     JsRet.thrown "Could not start without pullsecret!")
            | p :: ps =>
                let ask := askAndStorePullSecret p
                if ask.2 then
                  let retry := startCrc st1 rest ps
                  (base ++ ask.1 ++ retry.1, retry.2)
                else
                  (base ++ ask.1, JsRet.thrown "Could not start without pullsecret!")
          else if nm == "RequestError" && code == "ECONNRESET" then
            (base ++ [Ev.updateStatus "started"], JsRet.retTrue)
          else
            (base ++ [Ev.showErrorObj, Ev.consoleErrorCall, Ev.updateStatus "stopped"],
             JsRet.retFalse)
      | .errNonStr =>
          (base ++ [Ev.showErrorObj, Ev.consoleErrorCall, Ev.updateStatus "stopped"],
           JsRet.retFalse)

/-- Last value produced by a projection over a trace, scanning left to right. -/
def lastProj (f : Ev → Option α) : List Ev → Option α
  | [] => none
  | e :: rest =>
      match lastProj f rest with
      | some b => some b
      | none => f e

/-- The status-update payload of an event, if any. -/
def statusOf : Ev → Option String
  | .updateStatus s => some s
  | _ => none

/-- The setSetupRunning payload of an event, if any. -/
def setupRunningOf : Ev → Option Bool
  | .setSetupRunning b => some b
  | _ => none

/-- The provider status after a trace: the payload of the last updateStatus. -/
def lastUpdateStatus (t : List Ev) : Option String := lastProj statusOf t

/-- The setup-running flag after a trace: payload of the last setSetupRunning. -/
def lastSetupRunning (t : List Ev) : Option Bool := lastProj setupRunningOf t

/-- Number of `commander.start()` calls in a trace. -/
def countDaemonStart (t : List Ev) : Nat :=
  (t.filter (fun e => e == Ev.daemonStart)).length



/-! ### Models from src/extension.ts -/

/-- The preset values of the daemon configuration. -/
inductive Preset where
  | openshift
  | microshift
  | podman
deriving Repr, DecidableEq

/-- Modelled from the spec: the human-readable preset label (getPresetLabel
lives in util.ts, which is not under src/); the exact strings affect only
message and connection-name payloads, not any claim. -/
def getPresetLabel : Preset → String
  | .openshift => "OpenShift"
  | .microshift => "MicroShift"
  | .podman => "Podman"

/-- Model of `readPreset` (extension.ts lines 332-341): query the daemon
configuration; when the query throws, log the error and return the default
preset `openshift`. -/
def readPreset (cfg : Except Unit Preset) : List Ev × Preset :=
  match cfg with
  | .ok p => ([Ev.configGetCall], p)
  | .error _ => ([Ev.configGetCall, Ev.consoleLogCall], Preset.openshift)

/-- Platform inputs of registerPodmanConnection: the platform family, the
home directory, and which paths exist on disk (`fs.existsSync`). -/
structure PlatformEnv where
  isWin : Bool
  homeDir : String
  fsExists : String → Bool

/-- The platform-specific podman socket path (extension.ts lines 256-262):
a named pipe on Windows, otherwise the resolved path under the home
directory. -/
def podmanSocketPath (env : PlatformEnv) : String :=
  if env.isWin then "//./pipe/crc-podman"
  else env.homeDir ++ "/.crc/machines/crc/docker.sock"

/-- Model of `registerPodmanConnection` (extension.ts lines 255-281):
register a container connection only when the socket path exists on disk;
its absence is only logged (console.error). -/
def registerPodmanConnection (env : PlatformEnv) : List Ev :=
  let socketPath := podmanSocketPath env
  if env.fsExists socketPath then [Ev.registerContainerConn socketPath]
  else [Ev.consoleErrorCall]

/-- Model of `registerOpenShiftLocalCluster` (extension.ts lines 288-319):
registers the Kubernetes provider connection (and stores its disposable in
connectionDisposable, tracked by the caller). -/
def registerOpenShiftLocalCluster (connName : String) : List Ev :=
  [Ev.registerKubeConn connName]

/-- The informational message shown for the unsupported podman preset. -/
def podmanUnsupportedMsg : String :=
  "Currently we do not support the Podman preset of OpenShift Local. Please use preference to change this:\n\nSettings > Preferences > Red Hat OpenShift Local > Preset"

/-- Model of `presetChanged` (extension.ts lines 352-379).  `conn` is whether
`connectionDisposable` currently holds a binding.  Returns the event trace,
the new value of `connectionDisposable`, and the preset that was read. -/
def presetChanged (cfg : Except Unit Preset) (conn : Bool) (env : PlatformEnv) :
    List Ev × Bool × Preset :=
  let rp := readPreset cfg
  let preset := rp.2
  let evs0 := rp.1 ++ [Ev.updateVersion (getPresetLabel preset)]
  let evs1 := evs0 ++ (if conn then [Ev.disposeConnection] else [])
  if preset == Preset.podman then
    (evs1 ++ [Ev.showInfo podmanUnsupportedMsg] ++ registerPodmanConnection env,
     false, preset)
  else if preset == Preset.openshift || preset == Preset.microshift then
    (evs1 ++ registerOpenShiftLocalCluster (getPresetLabel preset), true, preset)
  else
    (evs1, false, preset)

/-- Model of the provider lifecycle `start` callback (extension.ts lines
115-118): synchronously set the provider status to `starting`, then await
startCrc, discarding its value but propagating a thrown error. -/
def providerLifecycleStart (st : SetupSt) (daemon : List StartOutcome)
    (prompts : List PromptOutcome) : List Ev × JsRet :=
  let r := startCrc st daemon prompts
  (Ev.updateStatus "starting" :: r.1,
   match r.2 with
   | JsRet.thrown m => JsRet.thrown m
   | _ => JsRet.retUndef)

/-- Model of the provider lifecycle `stop` callback (extension.ts lines
119-122): set status `stopping`, then invoke stopCrc. -/
def providerLifecycleStop : List Ev :=
  [Ev.updateStatus "stopping", Ev.daemonStop]

/-- Model of the Kubernetes connection lifecycle `start` callback
(extension.ts lines 309-312). -/
def kubeLifecycleStart (st : SetupSt) (daemon : List StartOutcome)
    (prompts : List PromptOutcome) : List Ev × JsRet :=
  let r := startCrc st daemon prompts
  (Ev.updateStatus "starting" :: r.1,
   match r.2 with
   | JsRet.thrown m => JsRet.thrown m
   | _ => JsRet.retUndef)

/-- Model of the Kubernetes connection lifecycle `stop` callback
(extension.ts lines 313-316). -/
def kubeLifecycleStop : List Ev :=
  [Ev.updateStatus "stopping", Ev.daemonStop]

/-- Inputs to one createCrcVm invocation: the tracked daemon status string
(`crcStatus.status.CrcStatus`), the result setUpCrc would produce, the
startCrc environment, the configuration query outcome, platform paths, and
whether a connection binding currently exists. -/
structure CreateEnv where
  crcStatusNow : String
  setupOk : Bool
  st : SetupSt
  daemon : List StartOutcome
  prompts : List PromptOutcome
  cfg : Except Unit Preset
  penv : PlatformEnv
  conn : Bool

/-- Model of `initializeCrc` (extension.ts lines 214-228): run setup
non-interactively; on success re-evaluate the need-setup flag, connect to
crc, re-run presetChanged and register commands and preferences.  Returns
the trace, the new connectionDisposable state, and the setup result. -/
def initializeCrc (env : CreateEnv) : List Ev × Bool × Bool :=
  if env.setupOk then
    let pc := presetChanged env.cfg env.conn env.penv
    ([Ev.setupRun false, Ev.needSetupCall, Ev.connectToCrcCall] ++ pc.1
       ++ [Ev.addCommandsCall, Ev.syncPreferencesCall],
     pc.2.1, true)
  else
    ([Ev.setupRun false], env.conn, false)

/-- The tail of createCrcVm after the need-setup branch: await startCrc and,
when no binding exists and the start returned a truthy value, register
commands and re-run presetChanged. -/
def createCrcVmStart (pre : List Ev) (conn : Bool) (st : SetupSt) (env : CreateEnv) :
    List Ev × Except String Unit :=
  let s := startCrc st env.daemon env.prompts
  match s.2 with
  | JsRet.thrown m => (pre ++ s.1, Except.error m)
  | r =>
      if !conn && r == JsRet.retTrue then
        let pc := presetChanged env.cfg conn env.penv
        (pre ++ s.1 ++ [Ev.addCommandsCall] ++ pc.1, Except.ok ())
      else
        (pre ++ s.1, Except.ok ())

/-- Model of `createCrcVm` (extension.ts lines 189-212): return immediately
when an instance already exists; otherwise run initialization when needed
(throwing when it fails) and then start. -/
def createCrcVm (env : CreateEnv) : List Ev × Except String Unit :=
  if !(env.crcStatusNow == "No Cluster") && !(env.crcStatusNow == "Need Setup") then
    ([], Except.ok ())
  else if env.crcStatusNow == "Need Setup" then
    let ini := initializeCrc env
    if ini.2.2 then
      createCrcVmStart ini.1 ini.2.1 { env.st with isNeedSetup := env.st.needSetupAfter } env
    else
      (ini.1, Except.error (productName ++ " not initialized."))
  else
    createCrcVmStart [] env.conn env.st env

/-- Proof-layer abbreviation: the events of one startCrc attempt up to and
including the daemon start call (telemetry, the setup block when the flag is
set and setup does not throw, log streaming). -/
def preTrace (st : SetupSt) : List Ev :=
  [Ev.telemetry "crc.start"]
    ++ (if st.isNeedSetup then
          [Ev.setSetupRunning true, Ev.setupRun true, Ev.needSetupCall, Ev.setSetupRunning false]
        else [])
    ++ [Ev.startLogs, Ev.daemonStart]

/-- Events an event trace may classify as a connection registration. -/
def isRegisterEv : Ev → Bool
  | .registerContainerConn _ => true
  | .registerKubeConn _ => true
  | _ => false

/-! ### Trace helper lemmas -/

theorem lastProj_append_some {α : Type} (f : Ev → Option α) (a b : List Ev) (x : α)
    (h : lastProj f b = some x) : lastProj f (a ++ b) = some x := by
  induction a with
  | nil => simpa using h
  | cons e a ih =>
      rw [List.cons_append]
      simp only [lastProj]
      rw [ih]

theorem lastProj_append_none {α : Type} (f : Ev → Option α) (a b : List Ev)
    (h : lastProj f b = none) : lastProj f (a ++ b) = lastProj f a := by
  induction a with
  | nil => simpa using h
  | cons e a ih =>
      rw [List.cons_append]
      simp only [lastProj]
      rw [ih]

theorem countDaemonStart_append (a b : List Ev) :
    countDaemonStart (a ++ b) = countDaemonStart a + countDaemonStart b := by
  simp [countDaemonStart, List.filter_append]

/-! ### Branch evaluation lemmas for startCrc -/

theorem setup_no_throw (st : SetupSt) (hset : st.isNeedSetup = false ∨ st.setupThrows = false)
    (hn : st.isNeedSetup = true) : st.setupThrows = false := by
  rcases hset with h | h
  · rw [h] at hn
    exact absurd hn (by decide)
  · exact h

theorem startCrc_setup_throw (st : SetupSt) (daemon : List StartOutcome)
    (prompts : List PromptOutcome) (hn : st.isNeedSetup = true) (ht : st.setupThrows = true) :
    startCrc st daemon prompts =
      ([Ev.telemetry "crc.start", Ev.setSetupRunning true, Ev.setupRun true, Ev.logErrorCall,
        Ev.updateStatus "stopped", Ev.setSetupRunning false], JsRet.retUndef) := by
  rw [startCrc]
  simp [hn, ht]

theorem startCrc_ok (st : SetupSt) (s : String) (rest : List StartOutcome)
    (prompts : List PromptOutcome) (hset : st.isNeedSetup = false ∨ st.setupThrows = false) :
    startCrc st (StartOutcome.ok s :: rest) prompts =
      (if s == "Running" then
        (preTrace st ++ [Ev.updateStatus "started"], JsRet.retTrue)
       else
        (preTrace st ++ [Ev.updateStatus "error",
            Ev.showError ("Error during starting " ++ productName ++ ": " ++ s)],
         JsRet.retFalse)) := by
  have hb : (st.isNeedSetup && st.setupThrows) = false := by
    rcases hset with h | h <;> simp [h]
  rw [startCrc]
  cases hn : st.isNeedSetup with
  | false => cases hs : (s == "Running") <;> simp [hb, hn, hs, preTrace]
  | true =>
      have ht := setup_no_throw st hset hn
      cases hs : (s == "Running") <;> simp [hb, hn, ht, hs, preTrace]

theorem startCrc_pull_retry (st : SetupSt) (msg nm code : String)
    (rest : List StartOutcome) (p : PromptOutcome) (ps : List PromptOutcome)
    (hset : st.isNeedSetup = false ∨ st.setupThrows = false)
    (hm : strStartsWith msg missingPullSecret = true)
    (ha : (askAndStorePullSecret p).2 = true) :
    startCrc st (StartOutcome.errStr msg nm code :: rest) (p :: ps) =
      (preTrace st ++ (askAndStorePullSecret p).1 ++ (startCrc st.afterAttempt rest ps).1,
       (startCrc st.afterAttempt rest ps).2) := by
  have hb : (st.isNeedSetup && st.setupThrows) = false := by
    rcases hset with h | h <;> simp [h]
  rw [startCrc]
  cases hn : st.isNeedSetup with
  | false => simp [hb, hn, hm, ha, preTrace, SetupSt.afterAttempt]
  | true =>
      have ht := setup_no_throw st hset hn
      simp [hb, hn, ht, hm, ha, preTrace, SetupSt.afterAttempt]

theorem startCrc_pull_fail (st : SetupSt) (msg nm code : String)
    (rest : List StartOutcome) (p : PromptOutcome) (ps : List PromptOutcome)
    (hset : st.isNeedSetup = false ∨ st.setupThrows = false)
    (hm : strStartsWith msg missingPullSecret = true)
    (ha : (askAndStorePullSecret p).2 = false) :
    startCrc st (StartOutcome.errStr msg nm code :: rest) (p :: ps) =
      (preTrace st ++ (askAndStorePullSecret p).1,
       JsRet.thrown "Could not start without pullsecret!") := by
  have hb : (st.isNeedSetup && st.setupThrows) = false := by
    rcases hset with h | h <;> simp [h]
  rw [startCrc]
  cases hn : st.isNeedSetup with
  | false => simp [hb, hn, hm, ha, preTrace]
  | true =>
      have ht := setup_no_throw st hset hn
      simp [hb, hn, ht, hm, ha, preTrace]

theorem startCrc_reset (st : SetupSt) (msg nm code : String)
    (rest : List StartOutcome) (prompts : List PromptOutcome)
    (hset : st.isNeedSetup = false ∨ st.setupThrows = false)
    (hm : strStartsWith msg missingPullSecret = false)
    (hc : (nm == "RequestError" && code == "ECONNRESET") = true) :
    startCrc st (StartOutcome.errStr msg nm code :: rest) prompts =
      (preTrace st ++ [Ev.updateStatus "started"], JsRet.retTrue) := by
  have hb : (st.isNeedSetup && st.setupThrows) = false := by
    rcases hset with h | h <;> simp [h]
  rw [startCrc]
  cases hn : st.isNeedSetup with
  | false => simp [hb, hn, hm, hc, preTrace]
  | true =>
      have ht := setup_no_throw st hset hn
      simp [hb, hn, ht, hm, hc, preTrace]

theorem startCrc_err_other (st : SetupSt) (msg nm code : String)
    (rest : List StartOutcome) (prompts : List PromptOutcome)
    (hset : st.isNeedSetup = false ∨ st.setupThrows = false)
    (hm : strStartsWith msg missingPullSecret = false)
    (hc : (nm == "RequestError" && code == "ECONNRESET") = false) :
    startCrc st (StartOutcome.errStr msg nm code :: rest) prompts =
      (preTrace st ++ [Ev.showErrorObj, Ev.consoleErrorCall, Ev.updateStatus "stopped"],
       JsRet.retFalse) := by
  have hb : (st.isNeedSetup && st.setupThrows) = false := by
    rcases hset with h | h <;> simp [h]
  rw [startCrc]
  cases hn : st.isNeedSetup with
  | false => simp [hb, hn, hm, hc, preTrace]
  | true =>
      have ht := setup_no_throw st hset hn
      simp [hb, hn, ht, hm, hc, preTrace]

theorem startCrc_err_nonstr (st : SetupSt) (rest : List StartOutcome)
    (prompts : List PromptOutcome)
    (hset : st.isNeedSetup = false ∨ st.setupThrows = false) :
    startCrc st (StartOutcome.errNonStr :: rest) prompts =
      (preTrace st ++ [Ev.showErrorObj, Ev.consoleErrorCall, Ev.updateStatus "stopped"],
       JsRet.retFalse) := by
  have hb : (st.isNeedSetup && st.setupThrows) = false := by
    rcases hset with h | h <;> simp [h]
  rw [startCrc]
  cases hn : st.isNeedSetup with
  | false => simp [hb, hn, preTrace]
  | true =>
      have ht := setup_no_throw st hset hn
      simp [hb, hn, ht, preTrace]

/-! ### Facts about preTrace and askAndStorePullSecret traces -/

theorem lastUpdateStatus_preTrace (st : SetupSt) : lastUpdateStatus (preTrace st) = none := by
  cases hn : st.isNeedSetup <;>
    simp [preTrace, hn, lastUpdateStatus, lastProj, statusOf]

theorem lastSetupRunning_preTrace (st : SetupSt) :
    lastSetupRunning (preTrace st) ≠ some true := by
  cases hn : st.isNeedSetup <;>
    simp [preTrace, hn, lastSetupRunning, lastProj, setupRunningOf]

theorem countDaemonStart_preTrace (st : SetupSt) : countDaemonStart (preTrace st) = 1 := by
  cases hn : st.isNeedSetup <;> simp [preTrace, hn, countDaemonStart]

theorem lastSetupRunning_ask (p : PromptOutcome) :
    lastSetupRunning (askAndStorePullSecret p).1 = none := by
  cases p with
  | cancel => rfl
  | invalidJson e => rfl
  | parsed j storeOk =>
      cases hv : validatePullSecret j with
      | error e => simp [askAndStorePullSecret, hv, lastSetupRunning, lastProj, setupRunningOf]
      | ok u =>
          cases storeOk <;>
            simp [askAndStorePullSecret, hv, lastSetupRunning, lastProj, setupRunningOf]

theorem countDaemonStart_ask (p : PromptOutcome) :
    countDaemonStart (askAndStorePullSecret p).1 = 0 := by
  cases p with
  | cancel => rfl
  | invalidJson e => rfl
  | parsed j storeOk =>
      cases hv : validatePullSecret j with
      | error e => simp [askAndStorePullSecret, hv, countDaemonStart]
      | ok u =>
          cases storeOk <;> simp [askAndStorePullSecret, hv, countDaemonStart]

theorem startCrc_nil (st : SetupSt) (prompts : List PromptOutcome)
    (hset : st.isNeedSetup = false ∨ st.setupThrows = false) :
    startCrc st [] prompts = (preTrace st, JsRet.retFalse) := by
  have hb : (st.isNeedSetup && st.setupThrows) = false := by
    rcases hset with h | h <;> simp [h]
  rw [startCrc]
  cases hn : st.isNeedSetup with
  | false => simp [hb, hn, preTrace]
  | true =>
      have ht := setup_no_throw st hset hn
      simp [hb, hn, ht, preTrace]

theorem startCrc_pull_noprompt (st : SetupSt) (msg nm code : String)
    (rest : List StartOutcome)
    (hset : st.isNeedSetup = false ∨ st.setupThrows = false)
    (hm : strStartsWith msg missingPullSecret = true) :
    startCrc st (StartOutcome.errStr msg nm code :: rest) [] =
      (preTrace st ++ [Ev.promptPullSecret],
       JsRet.thrown "Could not start without pullsecret!") := by
  have hb : (st.isNeedSetup && st.setupThrows) = false := by
    rcases hset with h | h <;> simp [h]
  rw [startCrc]
  cases hn : st.isNeedSetup with
  | false => simp [hb, hn, hm, preTrace, askAndStorePullSecret]
  | true =>
      have ht := setup_no_throw st hset hn
      simp [hb, hn, ht, hm, preTrace, askAndStorePullSecret]

theorem lastSetupRunning_pre_append (st : SetupSt) (tail : List Ev)
    (h : lastSetupRunning tail = none) :
    lastSetupRunning (preTrace st ++ tail) ≠ some true := by
  unfold lastSetupRunning at h ⊢
  rw [lastProj_append_none _ _ _ h]
  exact lastSetupRunning_preTrace st

/-- Guaranteed release of the setup-running flag: no run of startCrc leaves
the last setSetupRunning call in its trace with value true. -/
theorem startCrc_setupRunning_clear (daemon : List StartOutcome) (st : SetupSt)
    (prompts : List PromptOutcome) :
    lastSetupRunning (startCrc st daemon prompts).1 ≠ some true := by
  induction daemon generalizing st prompts with
  | nil =>
      by_cases hb : st.isNeedSetup = true ∧ st.setupThrows = true
      · rw [startCrc_setup_throw st [] prompts hb.1 hb.2]
        decide
      · have hset : st.isNeedSetup = false ∨ st.setupThrows = false := by
          rcases not_and_or.mp hb with h | h
          · exact Or.inl (by simpa using h)
          · exact Or.inr (by simpa using h)
        rw [startCrc_nil st prompts hset]
        have h0 : lastSetupRunning ([] : List Ev) = none := rfl
        have := lastSetupRunning_pre_append st [] h0
        simpa using this
  | cons d rest ih =>
      by_cases hb : st.isNeedSetup = true ∧ st.setupThrows = true
      · rw [startCrc_setup_throw st (d :: rest) prompts hb.1 hb.2]
        decide
      · have hset : st.isNeedSetup = false ∨ st.setupThrows = false := by
          rcases not_and_or.mp hb with h | h
          · exact Or.inl (by simpa using h)
          · exact Or.inr (by simpa using h)
        cases d with
        | ok status =>
            rw [startCrc_ok st status rest prompts hset]
            cases hs : (status == "Running") <;>
              simp only [hs, if_true, if_false, Bool.false_eq_true, ite_false, ite_true] <;>
                exact lastSetupRunning_pre_append st _ rfl
        | errNonStr =>
            rw [startCrc_err_nonstr st rest prompts hset]
            exact lastSetupRunning_pre_append st _ rfl
        | errStr msg nm code =>
            by_cases hm : strStartsWith msg missingPullSecret = true
            · cases prompts with
              | nil =>
                  rw [startCrc_pull_noprompt st msg nm code rest hset hm]
                  exact lastSetupRunning_pre_append st _ rfl
              | cons p ps =>
                  by_cases ha : (askAndStorePullSecret p).2 = true
                  · rw [startCrc_pull_retry st msg nm code rest p ps hset hm ha]
                    have hask := lastSetupRunning_ask p
                    cases hr : lastSetupRunning (startCrc st.afterAttempt rest ps).1 with
                    | some b =>
                        have hb2 := ih st.afterAttempt ps
                        rw [hr] at hb2
                        unfold lastSetupRunning at hr ⊢
                        rw [lastProj_append_some _ _ _ _ hr]
                        exact hb2
                    | none =>
                        unfold lastSetupRunning at hr hask ⊢
                        rw [lastProj_append_none _ _ _ hr, lastProj_append_none _ _ _ hask]
                        exact lastSetupRunning_preTrace st
                  · have ha2 : (askAndStorePullSecret p).2 = false := by
                      simpa using ha
                    rw [startCrc_pull_fail st msg nm code rest p ps hset hm ha2]
                    exact lastSetupRunning_pre_append st _ (lastSetupRunning_ask p)
            · have hm2 : strStartsWith msg missingPullSecret = false := by simpa using hm
              by_cases hc : (nm == "RequestError" && code == "ECONNRESET") = true
              · rw [startCrc_reset st msg nm code rest prompts hset hm2 hc]
                exact lastSetupRunning_pre_append st _ rfl
              · have hc2 : (nm == "RequestError" && code == "ECONNRESET") = false := by
                  simpa using hc
                rw [startCrc_err_other st msg nm code rest prompts hset hm2 hc2]
                exact lastSetupRunning_pre_append st _ rfl

/-! ### Claim theorems -/

/-- C1: for every startCrc invocation in which setup is not required (or
completes successfully) and the daemon start() resolves, the outcome is
determined solely by the returned Status string: "Running" gives provider
status started and result true; any other value gives provider status error,
a user-visible error message, and result false. -/
theorem claim_C1_status_determines_outcome (st : SetupSt) (s : String)
    (rest : List StartOutcome) (prompts : List PromptOutcome)
    (hset : st.isNeedSetup = false ∨ st.setupThrows = false) :
    (s = "Running" →
       (startCrc st (StartOutcome.ok s :: rest) prompts).2 = JsRet.retTrue ∧
       lastUpdateStatus (startCrc st (StartOutcome.ok s :: rest) prompts).1 = some "started") ∧
    (s ≠ "Running" →
       (startCrc st (StartOutcome.ok s :: rest) prompts).2 = JsRet.retFalse ∧
       lastUpdateStatus (startCrc st (StartOutcome.ok s :: rest) prompts).1 = some "error" ∧
       Ev.showError ("Error during starting " ++ productName ++ ": " ++ s)
         ∈ (startCrc st (StartOutcome.ok s :: rest) prompts).1) := by
  rw [startCrc_ok st s rest prompts hset]
  constructor
  · intro h
    subst h
    refine ⟨by simp, ?_⟩
    have hlast := lastProj_append_some statusOf (preTrace st)
      [Ev.updateStatus "started"] "started" rfl
    simpa [lastUpdateStatus] using hlast
  · intro h
    have hs : (s == "Running") = false := by
      cases hsb : (s == "Running")
      · rfl
      · exact absurd (by simpa using hsb) h
    refine ⟨by simp [hs], ?_, ?_⟩
    · have hlast := lastProj_append_some statusOf (preTrace st)
        [Ev.updateStatus "error",
         Ev.showError ("Error during starting " ++ productName ++ ": " ++ s)] "error" rfl
      simpa [hs, lastUpdateStatus] using hlast
    · simp [hs]

/-- C1 witness at a concrete input. -/
theorem claim_C1_status_determines_outcome_witness :
    (({ isNeedSetup := false, setupThrows := false, needSetupAfter := false } : SetupSt).isNeedSetup
        = false ∨
      ({ isNeedSetup := false, setupThrows := false, needSetupAfter := false } : SetupSt).setupThrows
        = false) ∧
    ("Running" = "Running" →
       (startCrc { isNeedSetup := false, setupThrows := false, needSetupAfter := false }
          [StartOutcome.ok "Running"] []).2 = JsRet.retTrue ∧
       lastUpdateStatus
         (startCrc { isNeedSetup := false, setupThrows := false, needSetupAfter := false }
            [StartOutcome.ok "Running"] []).1 = some "started") :=
  ⟨Or.inl rfl,
   (claim_C1_status_determines_outcome
      { isNeedSetup := false, setupThrows := false, needSetupAfter := false }
      "Running" [] [] (Or.inl rfl)).1⟩

/-- C2: when setup is required and setUpCrc throws, startCrc logs the error,
sets the provider status to stopped, and returns a non-success value (a bare
return, i.e. undefined); and on every exit path of the setup block the
setup-running flag is released, so no trace ever ends with it set. -/
theorem claim_C2_setup_failure_and_release (st : SetupSt) (daemon : List StartOutcome)
    (prompts : List PromptOutcome) :
    (st.isNeedSetup = true → st.setupThrows = true →
       (startCrc st daemon prompts).2 = JsRet.retUndef ∧
       ((startCrc st daemon prompts).2).isSuccess = false ∧
       lastUpdateStatus (startCrc st daemon prompts).1 = some "stopped" ∧
       Ev.logErrorCall ∈ (startCrc st daemon prompts).1) ∧
    lastSetupRunning (startCrc st daemon prompts).1 ≠ some true := by
  constructor
  · intro hn ht
    rw [startCrc_setup_throw st daemon prompts hn ht]
    refine ⟨rfl, rfl, by decide, by decide⟩
  · exact startCrc_setupRunning_clear daemon st prompts

/-- C2 witness at a concrete input. -/
theorem claim_C2_setup_failure_and_release_witness :
    (({ isNeedSetup := true, setupThrows := true, needSetupAfter := true } : SetupSt).isNeedSetup
        = true ∧
     ({ isNeedSetup := true, setupThrows := true, needSetupAfter := true } : SetupSt).setupThrows
        = true) ∧
    ((startCrc { isNeedSetup := true, setupThrows := true, needSetupAfter := true } [] []).2 =
        JsRet.retUndef ∧
     ((startCrc { isNeedSetup := true, setupThrows := true, needSetupAfter := true } [] []).2).isSuccess
        = false ∧
     lastUpdateStatus
        (startCrc { isNeedSetup := true, setupThrows := true, needSetupAfter := true } [] []).1 =
          some "stopped" ∧
     Ev.logErrorCall ∈
        (startCrc { isNeedSetup := true, setupThrows := true, needSetupAfter := true } [] []).1) :=
  ⟨⟨rfl, rfl⟩,
   (claim_C2_setup_failure_and_release
      { isNeedSetup := true, setupThrows := true, needSetupAfter := true } [] []).1 rfl rfl⟩

/-- C3: when the daemon start call throws an error whose message begins with
the missing-pull-secret marker, a successful askAndStorePullSecret leads to a
retry whose result is the overall result; a failed askAndStorePullSecret
makes the start fail with the explicit could-not-start-without-pullsecret
error, with no second daemon start call. -/
theorem claim_C3_pull_secret_retry (st : SetupSt) (msg nm code : String)
    (rest : List StartOutcome) (p : PromptOutcome) (ps : List PromptOutcome)
    (hset : st.isNeedSetup = false ∨ st.setupThrows = false)
    (hm : strStartsWith msg missingPullSecret = true) :
    ((askAndStorePullSecret p).2 = true →
       (startCrc st (StartOutcome.errStr msg nm code :: rest) (p :: ps)).2 =
         (startCrc st.afterAttempt rest ps).2) ∧
    ((askAndStorePullSecret p).2 = false →
       (startCrc st (StartOutcome.errStr msg nm code :: rest) (p :: ps)).2 =
         JsRet.thrown "Could not start without pullsecret!" ∧
       countDaemonStart (startCrc st (StartOutcome.errStr msg nm code :: rest) (p :: ps)).1 = 1) := by
  constructor
  · intro ha
    rw [startCrc_pull_retry st msg nm code rest p ps hset hm ha]
  · intro ha
    rw [startCrc_pull_fail st msg nm code rest p ps hset hm ha]
    refine ⟨rfl, ?_⟩
    rw [countDaemonStart_append, countDaemonStart_preTrace, countDaemonStart_ask p]

/-- C3 witness at a concrete input: a missing-pull-secret error followed by a
valid stored secret retries, and the overall result is the retried result. -/
theorem claim_C3_pull_secret_retry_witness :
    (({ isNeedSetup := false, setupThrows := false, needSetupAfter := false } : SetupSt).isNeedSetup
        = false ∨
     ({ isNeedSetup := false, setupThrows := false, needSetupAfter := false } : SetupSt).setupThrows
        = false) ∧
    strStartsWith missingPullSecret missingPullSecret = true ∧
    ((askAndStorePullSecret
        (PromptOutcome.parsed
          (Json.jobj [("auths", Json.jobj [("registry.io", Json.jobj [("auth", Json.jstr "xxx")])])])
          true)).2 = true →
       (startCrc { isNeedSetup := false, setupThrows := false, needSetupAfter := false }
          (StartOutcome.errStr missingPullSecret "" "" :: [StartOutcome.ok "Running"])
          (PromptOutcome.parsed
             (Json.jobj [("auths", Json.jobj [("registry.io", Json.jobj [("auth", Json.jstr "xxx")])])])
             true :: [])).2 =
         (startCrc
            ({ isNeedSetup := false, setupThrows := false, needSetupAfter := false } : SetupSt).afterAttempt
            [StartOutcome.ok "Running"] []).2) :=
  ⟨Or.inl rfl, by decide,
   (claim_C3_pull_secret_retry
      { isNeedSetup := false, setupThrows := false, needSetupAfter := false }
      missingPullSecret "" "" [StartOutcome.ok "Running"]
      (PromptOutcome.parsed
        (Json.jobj [("auths", Json.jobj [("registry.io", Json.jobj [("auth", Json.jstr "xxx")])])])
        true)
      [] (Or.inl rfl) (by decide)).1⟩

/-- C4: a start error with a string message that does not bear the
missing-pull-secret marker, with name RequestError and code ECONNRESET, is
suppressed as success (provider status started, result true); every other
non-pull-secret thrown error yields a user-visible message, provider status
stopped, and result false. -/
theorem claim_C4_connection_reset_suppression (st : SetupSt) (rest : List StartOutcome)
    (prompts : List PromptOutcome)
    (hset : st.isNeedSetup = false ∨ st.setupThrows = false) :
    (∀ msg, strStartsWith msg missingPullSecret = false →
       (startCrc st (StartOutcome.errStr msg "RequestError" "ECONNRESET" :: rest) prompts).2 =
          JsRet.retTrue ∧
       lastUpdateStatus
         (startCrc st (StartOutcome.errStr msg "RequestError" "ECONNRESET" :: rest) prompts).1 =
           some "started") ∧
    (∀ msg nm code, strStartsWith msg missingPullSecret = false →
       (nm == "RequestError" && code == "ECONNRESET") = false →
       (startCrc st (StartOutcome.errStr msg nm code :: rest) prompts).2 = JsRet.retFalse ∧
       lastUpdateStatus (startCrc st (StartOutcome.errStr msg nm code :: rest) prompts).1 =
         some "stopped" ∧
       Ev.showErrorObj ∈ (startCrc st (StartOutcome.errStr msg nm code :: rest) prompts).1) ∧
    ((startCrc st (StartOutcome.errNonStr :: rest) prompts).2 = JsRet.retFalse ∧
     lastUpdateStatus (startCrc st (StartOutcome.errNonStr :: rest) prompts).1 = some "stopped" ∧
     Ev.showErrorObj ∈ (startCrc st (StartOutcome.errNonStr :: rest) prompts).1) := by
  refine ⟨?_, ?_, ?_⟩
  · intro msg hm
    rw [startCrc_reset st msg "RequestError" "ECONNRESET" rest prompts hset hm (by decide)]
    refine ⟨rfl, ?_⟩
    have hlast := lastProj_append_some statusOf (preTrace st)
      [Ev.updateStatus "started"] "started" rfl
    simpa [lastUpdateStatus] using hlast
  · intro msg nm code hm hc
    rw [startCrc_err_other st msg nm code rest prompts hset hm hc]
    refine ⟨rfl, ?_, by simp⟩
    have hlast := lastProj_append_some statusOf (preTrace st)
      [Ev.showErrorObj, Ev.consoleErrorCall, Ev.updateStatus "stopped"] "stopped" rfl
    simpa [lastUpdateStatus] using hlast
  · rw [startCrc_err_nonstr st rest prompts hset]
    refine ⟨rfl, ?_, by simp⟩
    have hlast := lastProj_append_some statusOf (preTrace st)
      [Ev.showErrorObj, Ev.consoleErrorCall, Ev.updateStatus "stopped"] "stopped" rfl
    simpa [lastUpdateStatus] using hlast

/-- C4 witness at a concrete input. -/
theorem claim_C4_connection_reset_suppression_witness :
    (({ isNeedSetup := false, setupThrows := false, needSetupAfter := false } : SetupSt).isNeedSetup
        = false ∨
     ({ isNeedSetup := false, setupThrows := false, needSetupAfter := false } : SetupSt).setupThrows
        = false) ∧
    strStartsWith "socket hang up" missingPullSecret = false ∧
    ((startCrc { isNeedSetup := false, setupThrows := false, needSetupAfter := false }
        [StartOutcome.errStr "socket hang up" "RequestError" "ECONNRESET"] []).2 = JsRet.retTrue ∧
     lastUpdateStatus
       (startCrc { isNeedSetup := false, setupThrows := false, needSetupAfter := false }
          [StartOutcome.errStr "socket hang up" "RequestError" "ECONNRESET"] []).1 =
         some "started") :=
  ⟨Or.inl rfl, by decide,
   (claim_C4_connection_reset_suppression
      { isNeedSetup := false, setupThrows := false, needSetupAfter := false } [] []
      (Or.inl rfl)).1 "socket hang up" (by decide)⟩

/-- C5: each of the three invalid pull-secret shapes is rejected with a
descriptive validation message and result false, without any pullSecretStore
call; and a pullSecretStore call happens only for an input parsed to a JSON
value with a truthy non-empty auths member all of whose entries have a
truthy auth or credsStore. -/
theorem claim_C5_pull_secret_validation :
    (∀ b, askAndStorePullSecret (PromptOutcome.parsed (Json.jobj []) b) =
        ([Ev.promptPullSecret,
          Ev.showError (pullSecretInvalidMsg "missing \"auths\" JSON-object field")], false) ∧
        Ev.pullSecretStoreCall ∉
          (askAndStorePullSecret (PromptOutcome.parsed (Json.jobj []) b)).1) ∧
    (∀ b, askAndStorePullSecret
        (PromptOutcome.parsed (Json.jobj [("auths", Json.jobj [])]) b) =
        ([Ev.promptPullSecret,
          Ev.showError (pullSecretInvalidMsg "missing \"auths\" JSON-object field")], false) ∧
        Ev.pullSecretStoreCall ∉
          (askAndStorePullSecret (PromptOutcome.parsed (Json.jobj [("auths", Json.jobj [])]) b)).1) ∧
    (∀ b, askAndStorePullSecret
        (PromptOutcome.parsed (Json.jobj [("auths", Json.jobj [("r", Json.jobj [])])]) b) =
        ([Ev.promptPullSecret,
          Ev.showError (pullSecretInvalidMsg
            (jsonStringify (Json.jobj [("auths", Json.jobj [("r", Json.jobj [])])]) ++
             " JSON-object requires either \x27auth\x27 or \x27credsStore\x27 field"))], false) ∧
        Ev.pullSecretStoreCall ∉
          (askAndStorePullSecret
            (PromptOutcome.parsed (Json.jobj [("auths", Json.jobj [("r", Json.jobj [])])]) b)).1) ∧
    (∀ p, Ev.pullSecretStoreCall ∈ (askAndStorePullSecret p).1 →
        ∃ j b, p = PromptOutcome.parsed j b ∧
          jsTruthy (j.getField "auths") = true ∧
          0 < (jsValuesOpt (j.getField "auths")).length ∧
          ∀ a ∈ jsValuesOpt (j.getField "auths"),
            jsTruthy (a.getField "auth") = true ∨ jsTruthy (a.getField "credsStore") = true) := by
  refine ⟨?_, ?_, ?_, ?_⟩
  · intro b
    cases b <;> exact ⟨by decide, by decide⟩
  · intro b
    cases b <;> exact ⟨by decide, by decide⟩
  · intro b
    cases b <;> exact ⟨by decide, by decide⟩
  · intro p hmem
    cases p with
    | cancel => simp [askAndStorePullSecret] at hmem
    | invalidJson e => simp [askAndStorePullSecret] at hmem
    | parsed j b =>
        refine ⟨j, b, rfl, ?_⟩
        cases hv : validatePullSecret j with
        | error e => simp [askAndStorePullSecret, hv] at hmem
        | ok u =>
            by_cases hcond : (jsTruthy (j.getField "auths") &&
                decide (0 < (jsValuesOpt (j.getField "auths")).length)) = true
            · have h12 := hcond
              rw [Bool.and_eq_true] at h12
              obtain ⟨h1, h2⟩ := h12
              cases hf : (jsValuesOpt (j.getField "auths")).find?
                  (fun aut => !(jsTruthy (aut.getField "auth")) &&
                              !(jsTruthy (aut.getField "credsStore"))) with
              | some a => simp [validatePullSecret, hcond, hf] at hv
              | none =>
                  refine ⟨h1, of_decide_eq_true h2, ?_⟩
                  intro a hamem
                  have hna := List.find?_eq_none.mp hf a hamem
                  by_cases hx : jsTruthy (a.getField "auth") = true
                  · exact Or.inl hx
                  · right
                    by_cases hy : jsTruthy (a.getField "credsStore") = true
                    · exact hy
                    · exfalso
                      have hx2 : jsTruthy (a.getField "auth") = false := by simpa using hx
                      have hy2 : jsTruthy (a.getField "credsStore") = false := by simpa using hy
                      exact hna (by simp [hx2, hy2])
            · simp [validatePullSecret, hcond] at hv

/-- C5 witness: the valid secret shape reaches pullSecretStore, and at that
input the only-after-validation property is realized. -/
theorem claim_C5_pull_secret_validation_witness :
    Ev.pullSecretStoreCall ∈
      (askAndStorePullSecret
        (PromptOutcome.parsed
          (Json.jobj [("auths",
            Json.jobj [("registry.io", Json.jobj [("auth", Json.jstr "xxx")])])]) true)).1 ∧
    (∃ j b,
      (PromptOutcome.parsed
        (Json.jobj [("auths",
          Json.jobj [("registry.io", Json.jobj [("auth", Json.jstr "xxx")])])]) true) =
        PromptOutcome.parsed j b ∧
      jsTruthy (j.getField "auths") = true ∧
      0 < (jsValuesOpt (j.getField "auths")).length ∧
      ∀ a ∈ jsValuesOpt (j.getField "auths"),
        jsTruthy (a.getField "auth") = true ∨ jsTruthy (a.getField "credsStore") = true) :=
  ⟨by decide,
   claim_C5_pull_secret_validation.2.2.2
     (PromptOutcome.parsed
       (Json.jobj [("auths",
         Json.jobj [("registry.io", Json.jobj [("auth", Json.jstr "xxx")])])]) true)
     (by decide)⟩

/-- C8 counterexample: startCrc can throw to its caller.  With a daemon error
bearing the missing-pull-secret marker and a cancelled prompt, startCrc ends
with a thrown error rather than a caught one, contradicting the claim that
startCrc itself never throws. -/
theorem claim_C8_counterexample :
    (startCrc { isNeedSetup := false, setupThrows := false, needSetupAfter := false }
       [StartOutcome.errStr missingPullSecret "" ""] [PromptOutcome.cancel]).2 =
      JsRet.thrown "Could not start without pullsecret!" := by decide

/-- C8 (amended): every daemon/transport error thrown during a start is
caught and translated at the startCrc boundary, except on the
failed-pull-secret path: the only error a startCrc invocation can propagate
to its caller is the explicit could-not-start-without-pullsecret error. -/
theorem claim_C8_only_pullsecret_escapes (daemon : List StartOutcome) (st : SetupSt)
    (prompts : List PromptOutcome) (m : String)
    (h : (startCrc st daemon prompts).2 = JsRet.thrown m) :
    m = "Could not start without pullsecret!" := by
  induction daemon generalizing st prompts with
  | nil =>
      by_cases hb : st.isNeedSetup = true ∧ st.setupThrows = true
      · rw [startCrc_setup_throw st [] prompts hb.1 hb.2] at h
        exact absurd h (by simp)
      · have hset : st.isNeedSetup = false ∨ st.setupThrows = false := by
          rcases not_and_or.mp hb with hq | hq
          · exact Or.inl (by simpa using hq)
          · exact Or.inr (by simpa using hq)
        rw [startCrc_nil st prompts hset] at h
        exact absurd h (by simp)
  | cons d rest ih =>
      by_cases hb : st.isNeedSetup = true ∧ st.setupThrows = true
      · rw [startCrc_setup_throw st (d :: rest) prompts hb.1 hb.2] at h
        exact absurd h (by simp)
      · have hset : st.isNeedSetup = false ∨ st.setupThrows = false := by
          rcases not_and_or.mp hb with hq | hq
          · exact Or.inl (by simpa using hq)
          · exact Or.inr (by simpa using hq)
        cases d with
        | ok status =>
            rw [startCrc_ok st status rest prompts hset] at h
            by_cases hs : (status == "Running") = true <;> simp [hs] at h
        | errNonStr =>
            rw [startCrc_err_nonstr st rest prompts hset] at h
            exact absurd h (by simp)
        | errStr msg nm code =>
            by_cases hm : strStartsWith msg missingPullSecret = true
            · cases prompts with
              | nil =>
                  rw [startCrc_pull_noprompt st msg nm code rest hset hm] at h
                  simpa using h.symm
              | cons p ps =>
                  by_cases ha : (askAndStorePullSecret p).2 = true
                  · rw [startCrc_pull_retry st msg nm code rest p ps hset hm ha] at h
                    exact ih st.afterAttempt ps h
                  · have ha2 : (askAndStorePullSecret p).2 = false := by simpa using ha
                    rw [startCrc_pull_fail st msg nm code rest p ps hset hm ha2] at h
                    simpa using h.symm
            · have hm2 : strStartsWith msg missingPullSecret = false := by simpa using hm
              by_cases hc : (nm == "RequestError" && code == "ECONNRESET") = true
              · rw [startCrc_reset st msg nm code rest prompts hset hm2 hc] at h
                exact absurd h (by simp)
              · have hc2 : (nm == "RequestError" && code == "ECONNRESET") = false := by
                  simpa using hc
                rw [startCrc_err_other st msg nm code rest prompts hset hm2 hc2] at h
                exact absurd h (by simp)

/-- C8 witness: the amended only-escaping-error property at a concrete
throwing input. -/
theorem claim_C8_only_pullsecret_escapes_witness :
    (startCrc { isNeedSetup := true, setupThrows := false, needSetupAfter := false }
       [StartOutcome.errStr missingPullSecret "e" "c"] [PromptOutcome.invalidJson "bad"]).2 =
      JsRet.thrown "Could not start without pullsecret!" ∧
    "Could not start without pullsecret!" = "Could not start without pullsecret!" :=
  ⟨by decide,
   claim_C8_only_pullsecret_escapes
     [StartOutcome.errStr missingPullSecret "e" "c"]
     { isNeedSetup := true, setupThrows := false, needSetupAfter := false }
     [PromptOutcome.invalidJson "bad"] "Could not start without pullsecret!" (by decide)⟩

theorem dispose_not_in_presetChanged_noconn (cfg : Except Unit Preset) (env : PlatformEnv) :
    Ev.disposeConnection ∉ (presetChanged cfg false env).1 := by
  cases cfg with
  | error e =>
      simp [presetChanged, readPreset, registerOpenShiftLocalCluster]
  | ok p =>
      cases p <;> cases hfs : env.fsExists (podmanSocketPath env) <;>
        simp [presetChanged, readPreset, registerOpenShiftLocalCluster,
              registerPodmanConnection, hfs]

theorem presetChanged_split (cfg : Except Unit Preset) (conn : Bool) (env : PlatformEnv) :
    ∃ pre suf, (presetChanged cfg conn env).1 = pre ++ suf ∧
      (∀ e ∈ pre, isRegisterEv e = false) ∧ Ev.disposeConnection ∉ suf ∧
      (conn = true → Ev.disposeConnection ∈ pre) := by
  cases conn with
  | false =>
      exact ⟨[], (presetChanged cfg false env).1, by simp, by simp,
             dispose_not_in_presetChanged_noconn cfg env, by simp⟩
  | true =>
      cases cfg with
      | error e =>
          refine ⟨[Ev.configGetCall, Ev.consoleLogCall,
                   Ev.updateVersion (getPresetLabel Preset.openshift), Ev.disposeConnection],
                  [Ev.registerKubeConn (getPresetLabel Preset.openshift)], ?_, ?_, ?_, ?_⟩
          · simp [presetChanged, readPreset, registerOpenShiftLocalCluster]
          · simp [isRegisterEv]
          · simp
          · simp
      | ok p =>
          cases p with
          | openshift =>
              refine ⟨[Ev.configGetCall,
                       Ev.updateVersion (getPresetLabel Preset.openshift), Ev.disposeConnection],
                      [Ev.registerKubeConn (getPresetLabel Preset.openshift)], ?_, ?_, ?_, ?_⟩
              · simp [presetChanged, readPreset, registerOpenShiftLocalCluster]
              · simp [isRegisterEv]
              · simp
              · simp
          | microshift =>
              refine ⟨[Ev.configGetCall,
                       Ev.updateVersion (getPresetLabel Preset.microshift), Ev.disposeConnection],
                      [Ev.registerKubeConn (getPresetLabel Preset.microshift)], ?_, ?_, ?_, ?_⟩
              · simp [presetChanged, readPreset, registerOpenShiftLocalCluster]
              · simp [isRegisterEv]
              · simp
              · simp
          | podman =>
              refine ⟨[Ev.configGetCall,
                       Ev.updateVersion (getPresetLabel Preset.podman), Ev.disposeConnection],
                      Ev.showInfo podmanUnsupportedMsg :: registerPodmanConnection env,
                      ?_, ?_, ?_, ?_⟩
              · simp [presetChanged, readPreset]
              · simp [isRegisterEv]
              · cases hfs : env.fsExists (podmanSocketPath env) <;>
                  simp [registerPodmanConnection, hfs]
              · simp

theorem presetChanged_podman_nosocket (cfg : Except Unit Preset) (conn : Bool)
    (env : PlatformEnv)
    (hp : (presetChanged cfg conn env).2.2 = Preset.podman)
    (hfs : env.fsExists (podmanSocketPath env) = false) :
    (∀ e ∈ (presetChanged cfg conn env).1, isRegisterEv e = false) ∧
    Ev.consoleErrorCall ∈ (presetChanged cfg conn env).1 := by
  cases cfg with
  | error e => simp [presetChanged, readPreset] at hp
  | ok p =>
      cases p with
      | openshift => simp [presetChanged, readPreset, registerOpenShiftLocalCluster] at hp
      | microshift => simp [presetChanged, readPreset, registerOpenShiftLocalCluster] at hp
      | podman =>
          cases conn with
          | false =>
              refine ⟨?_, ?_⟩ <;>
                simp [presetChanged, readPreset, registerPodmanConnection, hfs, isRegisterEv]
          | true =>
              refine ⟨?_, ?_⟩ <;>
                simp [presetChanged, readPreset, registerPodmanConnection, hfs, isRegisterEv]

/-- C6: on every presetChanged invocation, the trace splits into a
register-free head and a disposal-free tail, and whenever a binding exists
on entry (conn = true) the disposeConnection event occurs in that head: an
existing binding is always actually disposed, and disposed strictly before
any connection registration, so two bindings are never live simultaneously;
and when the resulting preset is podman but the socket path does not exist
on disk, no connection at all is registered, the absence is only logged
(console.error), and the operation completes normally (presetChanged is
total on all inputs, including a throwing configuration query). -/
theorem claim_C6_dispose_before_register (cfg : Except Unit Preset) (conn : Bool)
    (env : PlatformEnv) :
    (∃ pre suf, (presetChanged cfg conn env).1 = pre ++ suf ∧
       (∀ e ∈ pre, isRegisterEv e = false) ∧ Ev.disposeConnection ∉ suf ∧
       (conn = true → Ev.disposeConnection ∈ pre)) ∧
    ((presetChanged cfg conn env).2.2 = Preset.podman →
     env.fsExists (podmanSocketPath env) = false →
       (∀ e ∈ (presetChanged cfg conn env).1, isRegisterEv e = false) ∧
       Ev.consoleErrorCall ∈ (presetChanged cfg conn env).1) :=
  ⟨presetChanged_split cfg conn env,
   fun hp hfs => presetChanged_podman_nosocket cfg conn env hp hfs⟩

/-- C6 witness at a concrete input with an existing binding: the disposal
occurs in the register-free head, and the podman preset with an absent
socket registers nothing and logs the absence. -/
theorem claim_C6_dispose_before_register_witness :
    ((presetChanged (Except.ok Preset.podman) true
        { isWin := false, homeDir := "/home/crc", fsExists := fun _ => false }).2.2 =
          Preset.podman ∧
     ({ isWin := false, homeDir := "/home/crc", fsExists := fun _ => false } :
        PlatformEnv).fsExists
       (podmanSocketPath
         { isWin := false, homeDir := "/home/crc", fsExists := fun _ => false }) = false) ∧
    (∃ pre suf, (presetChanged (Except.ok Preset.podman) true
         { isWin := false, homeDir := "/home/crc", fsExists := fun _ => false }).1 =
           pre ++ suf ∧
       (∀ e ∈ pre, isRegisterEv e = false) ∧ Ev.disposeConnection ∉ suf ∧
       (true = true → Ev.disposeConnection ∈ pre)) ∧
    ((∀ e ∈ (presetChanged (Except.ok Preset.podman) true
         { isWin := false, homeDir := "/home/crc", fsExists := fun _ => false }).1,
        isRegisterEv e = false) ∧
     Ev.consoleErrorCall ∈ (presetChanged (Except.ok Preset.podman) true
         { isWin := false, homeDir := "/home/crc", fsExists := fun _ => false }).1) :=
  ⟨⟨rfl, rfl⟩,
   (claim_C6_dispose_before_register (Except.ok Preset.podman) true
      { isWin := false, homeDir := "/home/crc", fsExists := fun _ => false }).1,
   (claim_C6_dispose_before_register (Except.ok Preset.podman) true
      { isWin := false, homeDir := "/home/crc", fsExists := fun _ => false }).2 rfl rfl⟩

/-- C7: when the daemon configuration query throws, readPreset does not
propagate the error: it logs it (console.log) and returns the default preset
openshift, so the binding path always receives a defined preset value. -/
theorem claim_C7_readPreset_default :
    readPreset (Except.error ()) = ([Ev.configGetCall, Ev.consoleLogCall], Preset.openshift) :=
  rfl

/-- C9: each host-triggered lifecycle callback updates the visible provider
status synchronously before its first suspension point: both start callbacks
emit the starting update as the head of their trace, strictly before every
startCrc event, and both stop callbacks emit the stopping update before the
stopCrc invocation. -/
theorem claim_C9_status_update_first (st : SetupSt) (daemon : List StartOutcome)
    (prompts : List PromptOutcome) :
    ((providerLifecycleStart st daemon prompts).1.head? =
        some (Ev.updateStatus "starting") ∧
     (providerLifecycleStart st daemon prompts).1.tail = (startCrc st daemon prompts).1) ∧
    ((kubeLifecycleStart st daemon prompts).1.head? =
        some (Ev.updateStatus "starting") ∧
     (kubeLifecycleStart st daemon prompts).1.tail = (startCrc st daemon prompts).1) ∧
    (providerLifecycleStop.head? = some (Ev.updateStatus "stopping") ∧
     providerLifecycleStop.tail = [Ev.daemonStop]) ∧
    (kubeLifecycleStop.head? = some (Ev.updateStatus "stopping") ∧
     kubeLifecycleStop.tail = [Ev.daemonStop]) :=
  ⟨⟨rfl, rfl⟩, ⟨rfl, rfl⟩, ⟨rfl, rfl⟩, ⟨rfl, rfl⟩⟩

/-- C10: when the tracked daemon status is neither No Cluster nor Need
Setup, createCrcVm returns immediately with an empty trace and a normal
return: no setup, no daemon start, no commands and no connection bindings. -/
theorem claim_C10_createCrcVm_noop (env : CreateEnv)
    (h1 : env.crcStatusNow ≠ "No Cluster") (h2 : env.crcStatusNow ≠ "Need Setup") :
    createCrcVm env = ([], Except.ok ()) := by
  have b1 : (env.crcStatusNow == "No Cluster") = false := by
    cases hb : env.crcStatusNow == "No Cluster"
    · rfl
    · exact absurd (by simpa using hb) h1
  have b2 : (env.crcStatusNow == "Need Setup") = false := by
    cases hb : env.crcStatusNow == "Need Setup"
    · rfl
    · exact absurd (by simpa using hb) h2
  rw [createCrcVm]
  simp [b1, b2]

/-- C10 witness at a concrete input. -/
theorem claim_C10_createCrcVm_noop_witness :
    (({ crcStatusNow := "Running", setupOk := true,
        st := { isNeedSetup := false, setupThrows := false, needSetupAfter := false },
        daemon := [], prompts := [], cfg := Except.ok Preset.openshift,
        penv := { isWin := false, homeDir := "/home/crc", fsExists := fun _ => false },
        conn := false } : CreateEnv).crcStatusNow ≠ "No Cluster" ∧
     ({ crcStatusNow := "Running", setupOk := true,
        st := { isNeedSetup := false, setupThrows := false, needSetupAfter := false },
        daemon := [], prompts := [], cfg := Except.ok Preset.openshift,
        penv := { isWin := false, homeDir := "/home/crc", fsExists := fun _ => false },
        conn := false } : CreateEnv).crcStatusNow ≠ "Need Setup") ∧
    createCrcVm
      { crcStatusNow := "Running", setupOk := true,
        st := { isNeedSetup := false, setupThrows := false, needSetupAfter := false },
        daemon := [], prompts := [], cfg := Except.ok Preset.openshift,
        penv := { isWin := false, homeDir := "/home/crc", fsExists := fun _ => false },
        conn := false } = ([], Except.ok ()) :=
  ⟨⟨by decide, by decide⟩,
   claim_C10_createCrcVm_noop
     { crcStatusNow := "Running", setupOk := true,
       st := { isNeedSetup := false, setupThrows := false, needSetupAfter := false },
       daemon := [], prompts := [], cfg := Except.ok Preset.openshift,
       penv := { isWin := false, homeDir := "/home/crc", fsExists := fun _ => false },
       conn := false } (by decide) (by decide)⟩

end Crc
